import Mathlib

/-!
Shallow embedding of the booking lifecycle engine of the nexus hotel backend
(app/graphql/mutations/booking_mutations.py and the types it uses).

Modelling conventions:
* dates are whole days, embedded as integers (the source stores midnight
  datetimes and takes `.days` of their difference);
* monetary amounts are exact rationals (the source uses Python numbers; the
  10% tax literal `0.1` is embedded as `1/10`);
* the document store is a pair of lists (rooms, bookings) plus the
  housekeeping task queue, and every mutation is a function from a store
  state to `Except PyErr (Booking × Db)`, mirroring the raise/except flow
  of the source;
* room `status` is a plain string, exactly as in the store documents —
  the source compares and writes string literals for it;
* each mutation wraps every internal exception into a `ValueError` whose
  message is prefixed with the operation name (the blanket
  `except Exception` clause of each mutation), and an unexpected store
  fault can be injected via an `Option String` parameter at the store
  write that the claims are about.
-/

namespace Nexus

/-- Booking lifecycle statuses, from `BookingStatus` in
app/graphql/types/booking.py. -/
inductive BookingStatus where
  | pending
  | confirmed
  | checked_in
  | checked_out
  | cancelled
  | no_show
  deriving DecidableEq, Repr

/-- Payment statuses, from `PaymentStatus` in app/graphql/types/booking.py.
The source constructor `PARTIAL = "partial"` is rendered `partPaid` because
its source spelling is a reserved word in Lean. -/
inductive PaymentStatus where
  | pending
  | partPaid
  | paid
  | refunded
  | failed
  deriving DecidableEq, Repr

/-- A room document: the fields of the `rooms` collection that the booking
mutations read or write. `status` is the raw string stored in the document. -/
structure Room where
  id : String
  hotel_id : String
  status : String
  price_per_night : ℚ
  max_occupancy : ℕ
  deriving DecidableEq, Repr

/-- A booking document: the fields of the `bookings` collection that the
booking mutations read or write. `payments` and `room_charges` keep only the
amounts of the appended records, the sole field the mutations compute with. -/
structure Booking where
  id : String
  hotel_id : String
  room_id : String
  booking_number : String
  check_in_date : ℤ
  check_out_date : ℤ
  number_of_guests : ℕ
  booking_status : BookingStatus
  payment_status : PaymentStatus
  base_amount : ℚ
  tax_amount : ℚ
  total_amount : ℚ
  payments : List ℚ
  room_charges : List ℚ
  deriving DecidableEq, Repr

/-- The slice of the document store the booking mutations touch. A
housekeeping task is recorded as the (hotel_id, room_id) pair of the
cleaning task inserted at checkout. -/
structure Db where
  rooms : List Room
  bookings : List Booking
  housekeeping_tasks : List (String × String)
  deriving DecidableEq, Repr

/-- Errors surfaced by a mutation: `valueError` is a Python `ValueError`
raised by the mutation body (the only kind its `except` clause re-raises);
`storeError` stands for an unexpected exception coming out of the store
driver, used to express what unwrapped propagation would look like. -/
inductive PyErr where
  | valueError (msg : String)
  | storeError (msg : String)
  deriving DecidableEq, Repr

/-- The booking creation input, from `BookingInput` in
app/graphql/types/booking.py (the fields create_booking computes with). -/
structure BookingInput where
  hotel_id : String
  room_id : String
  check_in_date : ℤ
  check_out_date : ℤ
  number_of_guests : ℕ
  deriving DecidableEq, Repr

/-- Statuses that make a booking block availability:
`booking_status ∈ {confirmed, checked_in}` in the overlap queries. -/
def BookingStatus.isActive : BookingStatus → Bool
  | .confirmed => true
  | .checked_in => true
  | _ => false

/-- The `$or` filter of the availability query in create_booking
(booking_mutations.py lines 39-56): the existing booking matches when its
check-in lies in `[new.check_in, new.check_out)` or its check-out lies in
`(new.check_in, new.check_out]`. -/
def createOverlapQuery (roomId : String) (ci co : ℤ) (b : Booking) : Bool :=
  decide (b.room_id = roomId) && b.booking_status.isActive &&
    (decide (b.check_in_date < co ∧ ci ≤ b.check_in_date) ||
     decide (ci < b.check_out_date ∧ b.check_out_date ≤ co))

/-- Half-open interval overlap as the spec defines it:
`existing.check_in < new.check_out AND existing.check_out > new.check_in`,
restricted to active bookings on the same room. -/
def specOverlap (roomId : String) (ci co : ℤ) (b : Booking) : Bool :=
  decide (b.room_id = roomId) && b.booking_status.isActive &&
    decide (b.check_in_date < co ∧ ci < b.check_out_date)

/-- Room lookup of create_booking: `find_one` on `_id` and `hotel_id`. -/
def findRoom (db : Db) (roomId hotelId : String) : Option Room :=
  db.rooms.find? fun r => decide (r.id = roomId) && decide (r.hotel_id = hotelId)

/-- Room lookup by `_id` only, as extend_booking performs it. -/
def findRoomById (db : Db) (roomId : String) : Option Room :=
  db.rooms.find? fun r => decide (r.id = roomId)

/-- The `update_one` on the rooms collection setting `status`. -/
def setRoomStatus (db : Db) (roomId s : String) : Db :=
  { db with rooms := db.rooms.map fun r =>
      if r.id = roomId then { r with status := s } else r }

/-- The `update_one` on the bookings collection replacing the booking whose
`_id` matches by its updated version. -/
def putBooking (db : Db) (bookingId : String) (b : Booking) : Db :=
  { db with bookings := db.bookings.map fun x =>
      if x.id = bookingId then b else x }

/-- The character set the helper `_find_booking` accepts as hexadecimal. -/
def hexChars : List Char := "0123456789abcdefABCDEF".toList

/-- The ObjectId shape test of `_find_booking` (booking_mutations.py line
134): length 24 and every character hexadecimal. -/
def isObjectIdLike (s : String) : Bool :=
  s.length == 24 && s.toList.all fun c => hexChars.contains c

/-- The `_find_booking` helper: dual lookup by `_id` when the identifier
looks like an ObjectId, by `booking_number` otherwise. -/
def find_booking (db : Db) (booking_id : String) : Option Booking :=
  if isObjectIdLike booking_id then
    db.bookings.find? fun b => decide (b.id = booking_id)
  else
    db.bookings.find? fun b => decide (b.booking_number = booking_id)

/-- Body of create_booking up to its `except` clause. `newId` and
`bookingNumber` stand for the inserted document id and the
timestamp-generated booking number; `storeFault` injects an unexpected
exception raised by `db.bookings.insert_one`. -/
def create_booking_core (db : Db) (inp : BookingInput)
    (newId bookingNumber : String) (storeFault : Option String) :
    Except String (Booking × Db) :=
  match findRoom db inp.room_id inp.hotel_id with
  | none => .error "Room not found in specified hotel"
  | some room =>
    if room.status ≠ "available" then
      .error "Room is not available for booking"
    else if room.max_occupancy < inp.number_of_guests then
      .error "Room capacity exceeded"
    else if (db.bookings.find? (createOverlapQuery inp.room_id
        inp.check_in_date inp.check_out_date)).isSome then
      .error "Room is already booked for these dates"
    else
      let nights : ℤ := inp.check_out_date - inp.check_in_date
      let base : ℚ := room.price_per_night * (nights : ℚ)
      let tax : ℚ := base * (1 / 10)
      let b : Booking :=
        { id := newId
          hotel_id := inp.hotel_id
          room_id := inp.room_id
          booking_number := bookingNumber
          check_in_date := inp.check_in_date
          check_out_date := inp.check_out_date
          number_of_guests := inp.number_of_guests
          booking_status := .confirmed
          payment_status := .pending
          base_amount := base
          tax_amount := tax
          total_amount := base + tax
          payments := []
          room_charges := [] }
      match storeFault with
      | some msg => .error msg
      | none =>
        let db1 : Db := { db with bookings := db.bookings ++ [b] }
        .ok (b, setRoomStatus db1 inp.room_id "OCCUPIED")

/-- The create_booking mutation: the body wrapped by
`except Exception as e: raise ValueError(f"Error creating booking: ...")`. -/
def create_booking (db : Db) (inp : BookingInput)
    (newId bookingNumber : String) (storeFault : Option String) :
    Except PyErr (Booking × Db) :=
  match create_booking_core db inp newId bookingNumber storeFault with
  | .ok x => .ok x
  | .error m => .error (.valueError ("Error creating booking: " ++ m))

/-- Shared tail of update_booking_status: write the new status on the
booking and persist it. -/
def finishStatusUpdate (db : Db) (booking : Booking) (st : BookingStatus) :
    Except String (Booking × Db) :=
  let b : Booking := { booking with booking_status := st }
  .ok (b, putBooking db booking.id b)

/-- Body of update_booking_status up to its `except` clause. `hkFault`
injects an unexpected exception raised by
`db.housekeeping_tasks.insert_one` during checkout. -/
def update_booking_status_core (db : Db) (booking_id : String)
    (st : BookingStatus) (hkFault : Option String) :
    Except String (Booking × Db) :=
  match find_booking db booking_id with
  | none => .error "Booking not found"
  | some booking =>
    match st with
    | .checked_in =>
      if booking.booking_status ≠ .confirmed then
        .error "Only confirmed bookings can be checked in"
      else
        finishStatusUpdate (setRoomStatus db booking.room_id "occupied")
          booking .checked_in
    | .checked_out =>
      if booking.booking_status ≠ .checked_in then
        .error "Only checked-in bookings can be checked out"
      else
        let db1 := setRoomStatus db booking.room_id "cleaning"
        match hkFault with
        | some msg => .error msg
        | none =>
          let db2 : Db := { db1 with housekeeping_tasks :=
            db1.housekeeping_tasks ++ [(booking.hotel_id, booking.room_id)] }
          finishStatusUpdate db2 booking .checked_out
    | .cancelled =>
      if booking.booking_status = .checked_in ∨
          booking.booking_status = .checked_out then
        .error "Cannot cancel checked-in or checked-out bookings"
      else
        finishStatusUpdate (setRoomStatus db booking.room_id "available")
          booking .cancelled
    | other => finishStatusUpdate db booking other

/-- The update_booking_status mutation with its `except` wrapper. -/
def update_booking_status (db : Db) (booking_id : String)
    (st : BookingStatus) (hkFault : Option String) :
    Except PyErr (Booking × Db) :=
  match update_booking_status_core db booking_id st hkFault with
  | .ok x => .ok x
  | .error m => .error (.valueError ("Error updating booking status: " ++ m))

/-- Body of add_payment up to its `except` clause: append the payment and
recompute `payment_status` from the sum of payments. -/
def add_payment_core (db : Db) (booking_id : String) (amount : ℚ) :
    Except String (Booking × Db) :=
  match find_booking db booking_id with
  | none => .error "Booking not found"
  | some booking =>
    let total_paid : ℚ := booking.payments.sum + amount
    let pstat : PaymentStatus :=
      if booking.total_amount ≤ total_paid then .paid
      else if 0 < total_paid then .partPaid
      else .pending
    let b : Booking := { booking with
      payments := booking.payments ++ [amount]
      payment_status := pstat }
    .ok (b, putBooking db booking.id b)

/-- The add_payment mutation with its `except` wrapper. -/
def add_payment (db : Db) (booking_id : String) (amount : ℚ) :
    Except PyErr (Booking × Db) :=
  match add_payment_core db booking_id amount with
  | .ok x => .ok x
  | .error m => .error (.valueError ("Error adding payment: " ++ m))

/-- Body of add_room_charge up to its `except` clause: requires a
checked-in booking, appends the charge and increments `total_amount`. -/
def add_room_charge_core (db : Db) (booking_id : String) (amount : ℚ) :
    Except String (Booking × Db) :=
  match find_booking db booking_id with
  | none => .error "Active booking not found"
  | some booking =>
    if booking.booking_status ≠ .checked_in then
      .error "Active booking not found"
    else
      let b : Booking := { booking with
        room_charges := booking.room_charges ++ [amount]
        total_amount := booking.total_amount + amount }
      .ok (b, putBooking db booking.id b)

/-- The add_room_charge mutation with its `except` wrapper. -/
def add_room_charge (db : Db) (booking_id : String) (amount : ℚ) :
    Except PyErr (Booking × Db) :=
  match add_room_charge_core db booking_id amount with
  | .ok x => .ok x
  | .error m => .error (.valueError ("Error adding room charge: " ++ m))

/-- The conflict filter of extend_booking (booking_mutations.py lines
365-371): another active booking on the same room with
`check_in_date < newCheckOut` and `check_out_date > currentCheckOut`. -/
def extendConflictQuery (booking : Booking) (newCheckOut : ℤ) (b : Booking) :
    Bool :=
  decide (b.room_id = booking.room_id) && decide (b.id ≠ booking.id) &&
    b.booking_status.isActive &&
    decide (b.check_in_date < newCheckOut ∧
      booking.check_out_date < b.check_out_date)

/-- Body of extend_booking up to its `except` clause. -/
def extend_booking_core (db : Db) (booking_id : String) (newCheckOut : ℤ) :
    Except String (Booking × Db) :=
  match find_booking db booking_id with
  | none => .error "Booking not found"
  | some booking =>
    if booking.booking_status ≠ .confirmed ∧
        booking.booking_status ≠ .checked_in then
      .error "Can only extend confirmed or checked-in bookings"
    else if newCheckOut ≤ booking.check_out_date then
      .error "New check-out date must be after current check-out date"
    else if (db.bookings.find? (extendConflictQuery booking
        newCheckOut)).isSome then
      .error "Room is not available for the requested extension period"
    else
      match findRoomById db booking.room_id with
      | none => .error "NoneType object is not subscriptable"
      | some room =>
        let additional_nights : ℤ := newCheckOut - booking.check_out_date
        let additional_amount : ℚ :=
          room.price_per_night * (additional_nights : ℚ)
        let additional_tax : ℚ := additional_amount * (1 / 10)
        let b : Booking := { booking with
          check_out_date := newCheckOut
          base_amount := booking.base_amount + additional_amount
          tax_amount := booking.tax_amount + additional_tax
          total_amount := booking.total_amount +
            (additional_amount + additional_tax) }
        .ok (b, putBooking db booking.id b)

/-- The extend_booking mutation with its `except` wrapper. -/
def extend_booking (db : Db) (booking_id : String) (newCheckOut : ℤ) :
    Except PyErr (Booking × Db) :=
  match extend_booking_core db booking_id newCheckOut with
  | .ok x => .ok x
  | .error m => .error (.valueError ("Error extending booking: " ++ m))

instance : DecidableEq (Except PyErr (Booking × Db)) :=
  fun a b => match a, b with
  | .ok x, .ok y =>
    if h : x = y then .isTrue (by rw [h]) else
      .isFalse (by intro hc; cases hc; exact h rfl)
  | .error x, .error y =>
    if h : x = y then .isTrue (by rw [h]) else
      .isFalse (by intro hc; cases hc; exact h rfl)
  | .ok _, .error _ => .isFalse (by intro hc; cases hc)
  | .error _, .ok _ => .isFalse (by intro hc; cases hc)

/-- The booking a mutation returned, when it succeeded. -/
def okBooking : Except PyErr (Booking × Db) → Option Booking
  | .ok (b, _) => some b
  | .error _ => none

/-- The store state a mutation left behind, when it succeeded. -/
def okDb : Except PyErr (Booking × Db) → Option Db
  | .ok (_, d) => some d
  | .error _ => none

/-- Whether a mutation returned normally rather than raising. -/
def isOkE (e : Except PyErr (Booking × Db)) : Bool :=
  (okBooking e).isSome

/-- The status string of a room in the store left by a successful mutation. -/
def okRoomStatus (e : Except PyErr (Booking × Db)) (roomId : String) :
    Option String :=
  (okDb e).bind fun db => (findRoomById db roomId).map Room.status

/-- The values of the `RoomStatus` enum in app/graphql/types/room.py. -/
def roomStatusValues : List String :=
  ["available", "occupied", "cleaning", "maintenance", "blocked",
   "out_of_order"]

/-- The per-booking financial invariant of the spec:
`total_amount = base_amount + tax_amount + sum(room_charges.amount)`. -/
def amountInv (b : Booking) : Prop :=
  b.total_amount = b.base_amount + b.tax_amount + b.room_charges.sum

instance (b : Booking) : Decidable (amountInv b) := by
  unfold amountInv; infer_instance

/-- The financial invariant over every booking in the store. -/
def dbInv (db : Db) : Prop :=
  ∀ b ∈ db.bookings, amountInv b

instance (db : Db) : Decidable (dbInv db) := by
  unfold dbInv; infer_instance

/-- A sample available room: price 100 per night, capacity 2. -/
def roomA : Room :=
  { id := "aaaaaaaaaaaaaaaaaaaaaaaa"
    hotel_id := "h1"
    status := "available"
    price_per_night := 100
    max_occupancy := 2 }

/-- A confirmed booking of roomA covering days 10 to 14 (exclusive). -/
def bookingB1 : Booking :=
  { id := "bbbbbbbbbbbbbbbbbbbbbbb1"
    hotel_id := "h1"
    room_id := "aaaaaaaaaaaaaaaaaaaaaaaa"
    booking_number := "BK20240101000000"
    check_in_date := 10
    check_out_date := 14
    number_of_guests := 1
    booking_status := .confirmed
    payment_status := .pending
    base_amount := 400
    tax_amount := 40
    total_amount := 440
    payments := []
    room_charges := [] }

/-- Store with roomA available and the active booking over days 10-14. -/
def dbNested : Db :=
  { rooms := [roomA], bookings := [bookingB1], housekeeping_tasks := [] }

/-- A creation request for days 11-13, strictly inside bookingB1's window. -/
def inpNested : BookingInput :=
  { hotel_id := "h1"
    room_id := "aaaaaaaaaaaaaaaaaaaaaaaa"
    check_in_date := 11
    check_out_date := 13
    number_of_guests := 1 }

/-- Store with roomA available and no bookings at all. -/
def dbEmptyRoom : Db :=
  { rooms := [roomA], bookings := [], housekeeping_tasks := [] }

/-- A creation request whose check-in day is after its check-out day. -/
def inpBackwards : BookingInput :=
  { hotel_id := "h1"
    room_id := "aaaaaaaaaaaaaaaaaaaaaaaa"
    check_in_date := 12
    check_out_date := 10
    number_of_guests := 1 }

/-- A well-formed creation request for days 10-12 (2 nights). -/
def inpNormal : BookingInput :=
  { hotel_id := "h1"
    room_id := "aaaaaaaaaaaaaaaaaaaaaaaa"
    check_in_date := 10
    check_out_date := 12
    number_of_guests := 1 }

/-- A checked-out booking of roomA. -/
def bookingOut : Booking :=
  { bookingB1 with
    id := "bbbbbbbbbbbbbbbbbbbbbbb2"
    booking_number := "BK20240102000000"
    booking_status := .checked_out }

/-- Store holding only the checked-out booking. -/
def dbOut : Db :=
  { rooms := [roomA], bookings := [bookingOut], housekeeping_tasks := [] }

/-- A checked-in booking of roomA. -/
def bookingIn : Booking :=
  { bookingB1 with
    id := "bbbbbbbbbbbbbbbbbbbbbbb3"
    booking_number := "BK20240103000000"
    booking_status := .checked_in }

/-- Store holding only the checked-in booking. -/
def dbIn : Db :=
  { rooms := [roomA], bookings := [bookingIn], housekeeping_tasks := [] }

/-- A confirmed booking whose amounts are all zero (as created from a
zero-night request, which the code accepts). -/
def bookingZero : Booking :=
  { bookingB1 with
    id := "bbbbbbbbbbbbbbbbbbbbbbb4"
    booking_number := "BK20240104000000"
    base_amount := 0
    tax_amount := 0
    total_amount := 0 }

/-- Store holding only the zero-amount booking. -/
def dbZero : Db :=
  { rooms := [roomA], bookings := [bookingZero], housekeeping_tasks := [] }

/-- A booking whose booking_number has the shape of an ObjectId. -/
def bookingHexNum : Booking :=
  { bookingB1 with
    id := "bbbbbbbbbbbbbbbbbbbbbbb5"
    booking_number := "507f1f77bcf86cd799439011" }

/-- Store holding only the hex-numbered booking. -/
def dbHexNum : Db :=
  { rooms := [roomA], bookings := [bookingHexNum], housekeeping_tasks := [] }

/-- The empty store. -/
def dbEmpty : Db :=
  { rooms := [], bookings := [], housekeeping_tasks := [] }

/-- Result of creating the well-formed 2-night booking on the empty room. -/
def createNormalResult : Except PyErr (Booking × Db) :=
  create_booking dbEmptyRoom inpNormal "cccccccccccccccccccccccc"
    "BK20240107000000" none

/-- Expected booking after paying 100 against bookingB1. -/
def payB1 : Booking :=
  { bookingB1 with payments := [100], payment_status := .partPaid }

/-- Expected store after paying 100 against bookingB1 in dbNested. -/
def payDb1 : Db := putBooking dbNested "bbbbbbbbbbbbbbbbbbbbbbb1" payB1

/-- Expected booking after extending bookingIn from day 14 to day 16. -/
def extB1 : Booking :=
  { bookingIn with
    check_out_date := 16
    base_amount := 600
    tax_amount := 60
    total_amount := 660 }

/-- Expected store after extending bookingIn in dbIn to day 16. -/
def extDb1 : Db := putBooking dbIn "bbbbbbbbbbbbbbbbbbbbbbb3" extB1

/-- C1: the creation-time availability query misses an existing active
booking that strictly contains the requested window, so the request
succeeds where the spec demands a Conflict failure: bookingB1 (days 10-14,
confirmed) overlaps the request 11-13 under the spec's half-open overlap,
the code's `$or` query does not match it, and create_booking returns
normally, double-booking the room. -/
theorem create_booking_contained_overlap_not_detected :
    specOverlap "aaaaaaaaaaaaaaaaaaaaaaaa" 11 13 bookingB1 = true ∧
    createOverlapQuery "aaaaaaaaaaaaaaaaaaaaaaaa" 11 13 bookingB1 = false ∧
    bookingB1.booking_status = .confirmed ∧
    isOkE (create_booking dbNested inpNested "cccccccccccccccccccccccc"
      "BK20240105000000" none) = true := by
  norm_num [create_booking, create_booking_core, findRoom, createOverlapQuery,
    BookingStatus.isActive, setRoomStatus, isOkE, okBooking, okDb, okRoomStatus,
    findRoomById, roomStatusValues, update_booking_status,
    update_booking_status_core, finishStatusUpdate, putBooking, find_booking,
    add_payment, add_payment_core, specOverlap, extend_booking,
    extend_booking_core, extendConflictQuery, createNormalResult,
    roomA, bookingB1, dbNested, inpNested, dbEmptyRoom, inpBackwards,
    inpNormal, bookingOut, dbOut, bookingIn, dbIn, bookingZero, dbZero,
    (by decide : isObjectIdLike "bbbbbbbbbbbbbbbbbbbbbbb2" = true),
    (by decide : isObjectIdLike "bbbbbbbbbbbbbbbbbbbbbbb3" = true),
    (by decide : isObjectIdLike "bbbbbbbbbbbbbbbbbbbbbbb4" = true)]

/-- C4: create_booking performs no validation on the night count: a request
whose check-in day is after its check-out day is accepted and produces a
booking with a negative base_amount, instead of failing Validation. -/
theorem create_booking_accepts_nonpositive_nights :
    inpBackwards.check_out_date - inpBackwards.check_in_date ≤ 0 ∧
    isOkE (create_booking dbEmptyRoom inpBackwards "cccccccccccccccccccccccc"
      "BK20240106000000" none) = true ∧
    (okBooking (create_booking dbEmptyRoom inpBackwards
      "cccccccccccccccccccccccc" "BK20240106000000" none)).map
      Booking.base_amount = some (-200) := by
  norm_num [create_booking, create_booking_core, findRoom, createOverlapQuery,
    BookingStatus.isActive, setRoomStatus, isOkE, okBooking, okDb, okRoomStatus,
    findRoomById, roomStatusValues, update_booking_status,
    update_booking_status_core, finishStatusUpdate, putBooking, find_booking,
    add_payment, add_payment_core, specOverlap, extend_booking,
    extend_booking_core, extendConflictQuery, createNormalResult,
    roomA, bookingB1, dbNested, inpNested, dbEmptyRoom, inpBackwards,
    inpNormal, bookingOut, dbOut, bookingIn, dbIn, bookingZero, dbZero,
    (by decide : isObjectIdLike "bbbbbbbbbbbbbbbbbbbbbbb2" = true),
    (by decide : isObjectIdLike "bbbbbbbbbbbbbbbbbbbbbbb3" = true),
    (by decide : isObjectIdLike "bbbbbbbbbbbbbbbbbbbbbbb4" = true)]

/-- C5: a successful creation persists the booking as confirmed / pending
with base_amount = price * nights and tax_amount = 10% of it, but writes
the room status as the string "OCCUPIED", which is not the enum value
"occupied" and not among the six RoomStatus values. -/
theorem create_booking_sets_room_status_uppercase_occupied :
    (okBooking createNormalResult).map Booking.booking_status =
      some .confirmed ∧
    (okBooking createNormalResult).map Booking.payment_status =
      some .pending ∧
    (okBooking createNormalResult).map Booking.base_amount = some 200 ∧
    (okBooking createNormalResult).map Booking.tax_amount = some 20 ∧
    okRoomStatus createNormalResult "aaaaaaaaaaaaaaaaaaaaaaaa" =
      some "OCCUPIED" ∧
    roomStatusValues.contains "OCCUPIED" = false := by
  norm_num [create_booking, create_booking_core, findRoom, createOverlapQuery,
    BookingStatus.isActive, setRoomStatus, isOkE, okBooking, okDb, okRoomStatus,
    findRoomById, roomStatusValues, update_booking_status,
    update_booking_status_core, finishStatusUpdate, putBooking, find_booking,
    add_payment, add_payment_core, specOverlap, extend_booking,
    extend_booking_core, extendConflictQuery, createNormalResult,
    roomA, bookingB1, dbNested, inpNested, dbEmptyRoom, inpBackwards,
    inpNormal, bookingOut, dbOut, bookingIn, dbIn, bookingZero, dbZero,
    (by decide : isObjectIdLike "bbbbbbbbbbbbbbbbbbbbbbb2" = true),
    (by decide : isObjectIdLike "bbbbbbbbbbbbbbbbbbbbbbb3" = true),
    (by decide : isObjectIdLike "bbbbbbbbbbbbbbbbbbbbbbb4" = true)]
  all_goals decide

/-- C8: when the housekeeping insert raises during checkout, the whole
update_booking_status call fails with the wrapped ValueError and the
booking is not transitioned, though the same checkout succeeds when the
insert does not fail. -/
theorem checkout_aborts_on_housekeeping_failure :
    find_booking dbIn "bbbbbbbbbbbbbbbbbbbbbbb3" = some bookingIn ∧
    bookingIn.booking_status = .checked_in ∧
    update_booking_status dbIn "bbbbbbbbbbbbbbbbbbbbbbb3" .checked_out
      (some "housekeeping insert failed") =
      .error (.valueError
        "Error updating booking status: housekeeping insert failed") ∧
    isOkE (update_booking_status dbIn "bbbbbbbbbbbbbbbbbbbbbbb3"
      .checked_out none) = true := by
  norm_num [create_booking, create_booking_core, findRoom, createOverlapQuery,
    BookingStatus.isActive, setRoomStatus, isOkE, okBooking, okDb, okRoomStatus,
    findRoomById, roomStatusValues, update_booking_status,
    update_booking_status_core, finishStatusUpdate, putBooking, find_booking,
    add_payment, add_payment_core, specOverlap, extend_booking,
    extend_booking_core, extendConflictQuery, createNormalResult,
    roomA, bookingB1, dbNested, inpNested, dbEmptyRoom, inpBackwards,
    inpNormal, bookingOut, dbOut, bookingIn, dbIn, bookingZero, dbZero,
    (by decide : isObjectIdLike "bbbbbbbbbbbbbbbbbbbbbbb2" = true),
    (by decide : isObjectIdLike "bbbbbbbbbbbbbbbbbbbbbbb3" = true),
    (by decide : isObjectIdLike "bbbbbbbbbbbbbbbbbbbbbbb4" = true)]
  all_goals decide

/-- C3 counterexample: a checked-out booking is moved back to confirmed
without any error, because update_booking_status validates no transition
whose target is pending, confirmed, or no_show. -/
theorem checked_out_to_confirmed_succeeds :
    find_booking dbOut "bbbbbbbbbbbbbbbbbbbbbbb2" = some bookingOut ∧
    bookingOut.booking_status = .checked_out ∧
    (okBooking (update_booking_status dbOut "bbbbbbbbbbbbbbbbbbbbbbb2"
      .confirmed none)).map Booking.booking_status = some .confirmed := by
  norm_num [create_booking, create_booking_core, findRoom, createOverlapQuery,
    BookingStatus.isActive, setRoomStatus, isOkE, okBooking, okDb, okRoomStatus,
    findRoomById, roomStatusValues, update_booking_status,
    update_booking_status_core, finishStatusUpdate, putBooking, find_booking,
    add_payment, add_payment_core, specOverlap, extend_booking,
    extend_booking_core, extendConflictQuery, createNormalResult,
    roomA, bookingB1, dbNested, inpNested, dbEmptyRoom, inpBackwards,
    inpNormal, bookingOut, dbOut, bookingIn, dbIn, bookingZero, dbZero,
    (by decide : isObjectIdLike "bbbbbbbbbbbbbbbbbbbbbbb2" = true),
    (by decide : isObjectIdLike "bbbbbbbbbbbbbbbbbbbbbbb3" = true),
    (by decide : isObjectIdLike "bbbbbbbbbbbbbbbbbbbbbbb4" = true)]

/-- C7 counterexample: on a booking with total_amount = 0, a payment
bringing the payment sum to 0 yields payment_status paid, not pending as
the claim states, because the paid comparison is evaluated first. -/
theorem add_payment_zero_sum_yields_paid :
    bookingZero.payments.sum + 0 = 0 ∧
    (okBooking (add_payment dbZero "bbbbbbbbbbbbbbbbbbbbbbb4" 0)).map
      Booking.payment_status = some .paid ∧
    PaymentStatus.paid ≠ PaymentStatus.pending := by
  norm_num [create_booking, create_booking_core, findRoom, createOverlapQuery,
    BookingStatus.isActive, setRoomStatus, isOkE, okBooking, okDb, okRoomStatus,
    findRoomById, roomStatusValues, update_booking_status,
    update_booking_status_core, finishStatusUpdate, putBooking, find_booking,
    add_payment, add_payment_core, specOverlap, extend_booking,
    extend_booking_core, extendConflictQuery, createNormalResult,
    roomA, bookingB1, dbNested, inpNested, dbEmptyRoom, inpBackwards,
    inpNormal, bookingOut, dbOut, bookingIn, dbIn, bookingZero, dbZero,
    (by decide : isObjectIdLike "bbbbbbbbbbbbbbbbbbbbbbb2" = true),
    (by decide : isObjectIdLike "bbbbbbbbbbbbbbbbbbbbbbb3" = true),
    (by decide : isObjectIdLike "bbbbbbbbbbbbbbbbbbbbbbb4" = true)]
  all_goals decide

/-- C9 counterexample: an unexpected store error raised inside
create_booking is surfaced as a wrapped ValueError, not propagated
unchanged as a store error. -/
theorem store_error_wrapped_as_value_error :
    create_booking dbEmptyRoom inpNormal "cccccccccccccccccccccccc"
      "BK20240108000000" (some "connection reset") =
      .error (.valueError "Error creating booking: connection reset") ∧
    create_booking dbEmptyRoom inpNormal "cccccccccccccccccccccccc"
      "BK20240108000000" (some "connection reset") ≠
      .error (.storeError "connection reset") := by
  norm_num [create_booking, create_booking_core, findRoom, createOverlapQuery,
    BookingStatus.isActive, setRoomStatus, isOkE, okBooking, okDb, okRoomStatus,
    findRoomById, roomStatusValues, update_booking_status,
    update_booking_status_core, finishStatusUpdate, putBooking, find_booking,
    add_payment, add_payment_core, specOverlap, extend_booking,
    extend_booking_core, extendConflictQuery, createNormalResult,
    roomA, bookingB1, dbNested, inpNested, dbEmptyRoom, inpBackwards,
    inpNormal, bookingOut, dbOut, bookingIn, dbIn, bookingZero, dbZero,
    (by decide : isObjectIdLike "bbbbbbbbbbbbbbbbbbbbbbb2" = true),
    (by decide : isObjectIdLike "bbbbbbbbbbbbbbbbbbbbbbb3" = true),
    (by decide : isObjectIdLike "bbbbbbbbbbbbbbbbbbbbbbb4" = true)]
  all_goals decide

/-- C10: find_booking dispatches on the ObjectId shape of the identifier —
lookup by document id exactly when the string has length 24 and only
hexadecimal characters, by booking_number otherwise — so a booking whose
booking_number itself has ObjectId shape can never be reached through its
booking_number: when no document id equals that string the lookup returns
none although the booking is in the store. -/
theorem find_booking_dual_key_dispatch (db : Db) (s : String) (b : Booking) :
    (isObjectIdLike s = true →
      find_booking db s = db.bookings.find? fun x => decide (x.id = s)) ∧
    (isObjectIdLike s = false →
      find_booking db s =
        db.bookings.find? fun x => decide (x.booking_number = s)) ∧
    (isObjectIdLike b.booking_number = true → b ∈ db.bookings →
      (∀ x ∈ db.bookings, x.id ≠ b.booking_number) →
      find_booking db b.booking_number = none) := by
  refine ⟨fun h => ?_, fun h => ?_, fun hhex hmem hne => ?_⟩
  · simp [find_booking, h]
  · simp [find_booking, h]
  · rw [find_booking, if_pos hhex]
    refine List.find?_eq_none.mpr fun x hx => ?_
    simpa using hne x hx

/-- Witness for C10 at a concrete store: the booking whose booking_number
is the 24-hex string is in the store, yet looking it up by that number
returns none. -/
theorem find_booking_dual_key_dispatch_witness :
    isObjectIdLike bookingHexNum.booking_number = true ∧
    bookingHexNum ∈ dbHexNum.bookings ∧
    find_booking dbHexNum bookingHexNum.booking_number = none :=
  ⟨by decide, by simp [dbHexNum],
    (find_booking_dual_key_dispatch dbHexNum bookingHexNum.booking_number
      bookingHexNum).2.2 (by decide) (by simp [dbHexNum])
      (by norm_num [dbHexNum, bookingHexNum, bookingB1]; decide)⟩

/-- A booking returned by find_booking is in the store. -/
theorem find_booking_mem {db : Db} {s : String} {b : Booking}
    (h : find_booking db s = some b) : b ∈ db.bookings := by
  unfold find_booking at h
  split at h <;> exact List.mem_of_find?_eq_some h

/-- Replacing a booking that satisfies the financial invariant keeps the
store invariant. -/
theorem dbInv_putBooking {db : Db} {bid : String} {b : Booking}
    (hdb : dbInv db) (hb : amountInv b) : dbInv (putBooking db bid b) := by
  intro x hx
  simp only [putBooking, List.mem_map] at hx
  obtain ⟨y, hy, rfl⟩ := hx
  split_ifs
  · exact hb
  · exact hdb y hy

/-- Changing a room status leaves every booking untouched. -/
theorem dbInv_setRoomStatus {db : Db} {r s : String} (hdb : dbInv db) :
    dbInv (setRoomStatus db r s) :=
  fun x hx => hdb x hx

/-- Writing a status on a booking keeps its financial fields, hence the
invariant, and the store invariant after persisting it. -/
theorem finishStatusUpdate_inv {db : Db} {booking b : Booking}
    {st : BookingStatus} {d : Db} (hdb : dbInv db) (hbk : amountInv booking)
    (h : finishStatusUpdate db booking st = .ok (b, d)) :
    amountInv b ∧ dbInv d := by
  unfold finishStatusUpdate at h
  rw [Except.ok.injEq, Prod.mk.injEq] at h
  obtain ⟨hb, hd⟩ := h
  subst hb; subst hd
  have hb1 : amountInv { booking with booking_status := st } := by
    simpa [amountInv] using hbk
  exact ⟨hb1, dbInv_putBooking hdb hb1⟩

/-- create_booking preserves the financial invariant: the created booking
has no charges and total = base + tax. -/
theorem create_booking_preserves_inv {db : Db} {inp : BookingInput}
    {nid bn : String} {sf : Option String} {b : Booking} {d : Db}
    (hdb : dbInv db) (hok : create_booking db inp nid bn sf = .ok (b, d)) :
    amountInv b ∧ dbInv d := by
  cases hcore : create_booking_core db inp nid bn sf with
  | error m => simp [create_booking, hcore] at hok
  | ok x =>
    simp only [create_booking, hcore, Except.ok.injEq] at hok
    subst hok
    unfold create_booking_core at hcore
    split at hcore
    · simp at hcore
    · split at hcore
      · simp at hcore
      · split at hcore
        · simp at hcore
        · split at hcore
          · simp at hcore
          · split at hcore
            · simp at hcore
            · rw [Except.ok.injEq, Prod.mk.injEq] at hcore
              obtain ⟨hb, hd⟩ := hcore
              subst hb; subst hd
              refine ⟨by simp [amountInv], dbInv_setRoomStatus ?_⟩
              intro x hx
              simp only [List.mem_append, List.mem_singleton] at hx
              rcases hx with h | rfl
              · exact hdb x h
              · simp [amountInv]

/-- update_booking_status preserves the financial invariant: no branch
touches the amounts. -/
theorem update_booking_status_preserves_inv {db : Db} {bid : String}
    {st : BookingStatus} {hk : Option String} {b : Booking} {d : Db}
    (hdb : dbInv db) (hok : update_booking_status db bid st hk = .ok (b, d)) :
    amountInv b ∧ dbInv d := by
  cases hcore : update_booking_status_core db bid st hk with
  | error m => simp [update_booking_status, hcore] at hok
  | ok x =>
    simp only [update_booking_status, hcore, Except.ok.injEq] at hok
    subst hok
    unfold update_booking_status_core at hcore
    split at hcore
    · simp at hcore
    · rename_i booking hfb
      have hbk : amountInv booking := hdb booking (find_booking_mem hfb)
      split at hcore
      · split at hcore
        · simp at hcore
        · exact finishStatusUpdate_inv (dbInv_setRoomStatus hdb) hbk hcore
      · split at hcore
        · simp at hcore
        · split at hcore
          · simp at hcore
          · dsimp only at hcore
            refine finishStatusUpdate_inv ?_ hbk hcore
            exact fun x hx => hdb x hx
      · split at hcore
        · simp at hcore
        · exact finishStatusUpdate_inv (dbInv_setRoomStatus hdb) hbk hcore
      · exact finishStatusUpdate_inv hdb hbk hcore

/-- add_payment preserves the financial invariant: it only appends the
payment and rewrites payment_status. -/
theorem add_payment_preserves_inv {db : Db} {bid : String} {amt : ℚ}
    {b : Booking} {d : Db} (hdb : dbInv db)
    (hok : add_payment db bid amt = .ok (b, d)) :
    amountInv b ∧ dbInv d := by
  cases hcore : add_payment_core db bid amt with
  | error m => simp [add_payment, hcore] at hok
  | ok x =>
    simp only [add_payment, hcore, Except.ok.injEq] at hok
    subst hok
    unfold add_payment_core at hcore
    split at hcore
    · simp at hcore
    · rename_i booking hfb
      have hbk : amountInv booking := hdb booking (find_booking_mem hfb)
      rw [Except.ok.injEq, Prod.mk.injEq] at hcore
      obtain ⟨hb, hd⟩ := hcore
      subst hb; subst hd
      have hb1 : amountInv { booking with
          payments := booking.payments ++ [amt]
          payment_status := if booking.total_amount ≤ booking.payments.sum + amt
            then PaymentStatus.paid
            else if 0 < booking.payments.sum + amt then PaymentStatus.partPaid
            else PaymentStatus.pending } := by
        simpa [amountInv] using hbk
      exact ⟨hb1, dbInv_putBooking hdb hb1⟩

/-- add_room_charge preserves the financial invariant: the charge amount is
added both to total_amount and to the charge list. -/
theorem add_room_charge_preserves_inv {db : Db} {bid : String} {amt : ℚ}
    {b : Booking} {d : Db} (hdb : dbInv db)
    (hok : add_room_charge db bid amt = .ok (b, d)) :
    amountInv b ∧ dbInv d := by
  cases hcore : add_room_charge_core db bid amt with
  | error m => simp [add_room_charge, hcore] at hok
  | ok x =>
    simp only [add_room_charge, hcore, Except.ok.injEq] at hok
    subst hok
    unfold add_room_charge_core at hcore
    split at hcore
    · simp at hcore
    · rename_i booking hfb
      have hbk : amountInv booking := hdb booking (find_booking_mem hfb)
      split at hcore
      · simp at hcore
      · rw [Except.ok.injEq, Prod.mk.injEq] at hcore
        obtain ⟨hb, hd⟩ := hcore
        subst hb; subst hd
        have hb1 : amountInv { booking with
            room_charges := booking.room_charges ++ [amt]
            total_amount := booking.total_amount + amt } := by
          simp only [amountInv] at hbk ⊢
          simp [List.sum_append, hbk]
          ring
        exact ⟨hb1, dbInv_putBooking hdb hb1⟩

/-- extend_booking preserves the financial invariant: base, tax and total
grow by amounts that keep total = base + tax + charges. -/
theorem extend_booking_preserves_inv {db : Db} {bid : String} {nco : ℤ}
    {b : Booking} {d : Db} (hdb : dbInv db)
    (hok : extend_booking db bid nco = .ok (b, d)) :
    amountInv b ∧ dbInv d := by
  cases hcore : extend_booking_core db bid nco with
  | error m => simp [extend_booking, hcore] at hok
  | ok x =>
    simp only [extend_booking, hcore, Except.ok.injEq] at hok
    subst hok
    unfold extend_booking_core at hcore
    split at hcore
    · simp at hcore
    · rename_i booking hfb
      have hbk : amountInv booking := hdb booking (find_booking_mem hfb)
      split at hcore
      · simp at hcore
      · split at hcore
        · simp at hcore
        · split at hcore
          · simp at hcore
          · split at hcore
            · simp at hcore
            · rename_i room hroom
              rw [Except.ok.injEq, Prod.mk.injEq] at hcore
              obtain ⟨hb, hd⟩ := hcore
              subst hb; subst hd
              have hb1 : amountInv { booking with
                  check_out_date := nco
                  base_amount := booking.base_amount +
                    room.price_per_night * ((nco - booking.check_out_date : ℤ) : ℚ)
                  tax_amount := booking.tax_amount +
                    room.price_per_night * ((nco - booking.check_out_date : ℤ) : ℚ) * (1 / 10)
                  total_amount := booking.total_amount +
                    (room.price_per_night * ((nco - booking.check_out_date : ℤ) : ℚ) +
                     room.price_per_night * ((nco - booking.check_out_date : ℤ) : ℚ) * (1 / 10)) } := by
                simp only [amountInv] at hbk ⊢
                rw [hbk]; ring
              exact ⟨hb1, dbInv_putBooking hdb hb1⟩

/-- C2: provided every booking in the store satisfies
total_amount = base_amount + tax_amount + sum of its room charge amounts,
each of the five operations returns a booking satisfying it and leaves a
store in which every booking still satisfies it. -/
theorem operations_preserve_total_amount_invariant (db : Db) (hdb : dbInv db)
    (inp : BookingInput) (nid bn : String) (sf : Option String)
    (bid2 bid3 bid4 bid5 : String) (st : BookingStatus) (hk : Option String)
    (amt chg : ℚ) (nco : ℤ) (b1 b2 b3 b4 b5 : Booking)
    (d1 d2 d3 d4 d5 : Db) :
    (create_booking db inp nid bn sf = .ok (b1, d1) →
      amountInv b1 ∧ dbInv d1) ∧
    (update_booking_status db bid2 st hk = .ok (b2, d2) →
      amountInv b2 ∧ dbInv d2) ∧
    (add_payment db bid3 amt = .ok (b3, d3) → amountInv b3 ∧ dbInv d3) ∧
    (add_room_charge db bid4 chg = .ok (b4, d4) →
      amountInv b4 ∧ dbInv d4) ∧
    (extend_booking db bid5 nco = .ok (b5, d5) →
      amountInv b5 ∧ dbInv d5) :=
  ⟨fun h => create_booking_preserves_inv hdb h,
   fun h => update_booking_status_preserves_inv hdb h,
   fun h => add_payment_preserves_inv hdb h,
   fun h => add_room_charge_preserves_inv hdb h,
   fun h => extend_booking_preserves_inv hdb h⟩

/-- Witness for C2 at the concrete store dbNested, whose booking satisfies
the financial invariant. -/
theorem operations_preserve_total_amount_invariant_witness :
    dbInv dbNested ∧
    ((create_booking dbNested
        (BookingInput.mk "h1" "aaaaaaaaaaaaaaaaaaaaaaaa" 20 22 1)
        "cccccccccccccccccccccccc" "BK20240109000000" none =
        .ok (bookingB1, dbNested) → amountInv bookingB1 ∧ dbInv dbNested) ∧
     (update_booking_status dbNested "bbbbbbbbbbbbbbbbbbbbbbb1" .cancelled
        none = .ok (bookingB1, dbNested) →
        amountInv bookingB1 ∧ dbInv dbNested) ∧
     (add_payment dbNested "bbbbbbbbbbbbbbbbbbbbbbb1" 100 =
        .ok (bookingB1, dbNested) → amountInv bookingB1 ∧ dbInv dbNested) ∧
     (add_room_charge dbNested "bbbbbbbbbbbbbbbbbbbbbbb1" 30 =
        .ok (bookingB1, dbNested) → amountInv bookingB1 ∧ dbInv dbNested) ∧
     (extend_booking dbNested "bbbbbbbbbbbbbbbbbbbbbbb1" 16 =
        .ok (bookingB1, dbNested) → amountInv bookingB1 ∧ dbInv dbNested)) := by
  have hdb : dbInv dbNested := by
    intro x hx
    simp only [dbNested, List.mem_singleton] at hx
    subst hx
    norm_num [amountInv, bookingB1]
  exact ⟨hdb, operations_preserve_total_amount_invariant dbNested hdb
    (BookingInput.mk "h1" "aaaaaaaaaaaaaaaaaaaaaaaa" 20 22 1)
    "cccccccccccccccccccccccc" "BK20240109000000" none
    "bbbbbbbbbbbbbbbbbbbbbbb1" "bbbbbbbbbbbbbbbbbbbbbbb1"
    "bbbbbbbbbbbbbbbbbbbbbbb1" "bbbbbbbbbbbbbbbbbbbbbbb1" .cancelled none
    100 30 16 bookingB1 bookingB1 bookingB1 bookingB1 bookingB1
    dbNested dbNested dbNested dbNested dbNested⟩

/-- C3 amended: for a booking found in the store, update_booking_status
succeeds exactly when the three validated targets pass their checks —
checked_in needs a confirmed booking, checked_out a checked_in booking,
cancelled a booking that is neither checked_in nor checked_out — while any
other target (pending, confirmed, no_show) is accepted from every current
status. -/
theorem update_booking_status_validated_targets_only (db : Db) (bid : String)
    (st : BookingStatus) (b : Booking) (hfb : find_booking db bid = some b) :
    isOkE (update_booking_status db bid st none) = true ↔
      ((st = .checked_in → b.booking_status = .confirmed) ∧
       (st = .checked_out → b.booking_status = .checked_in) ∧
       (st = .cancelled →
         ¬(b.booking_status = .checked_in ∨
           b.booking_status = .checked_out))) := by
  cases st <;> cases hb : b.booking_status <;>
    simp [update_booking_status, update_booking_status_core, hfb, hb,
      finishStatusUpdate, isOkE, okBooking]

/-- Witness for C3 at the concrete store dbOut: moving the checked-out
booking to confirmed succeeds, matching the characterization. -/
theorem update_booking_status_validated_targets_only_witness :
    find_booking dbOut "bbbbbbbbbbbbbbbbbbbbbbb2" = some bookingOut ∧
    (isOkE (update_booking_status dbOut "bbbbbbbbbbbbbbbbbbbbbbb2"
        .confirmed none) = true ↔
      ((BookingStatus.confirmed = .checked_in →
         bookingOut.booking_status = .confirmed) ∧
       (BookingStatus.confirmed = .checked_out →
         bookingOut.booking_status = .checked_in) ∧
       (BookingStatus.confirmed = .cancelled →
         ¬(bookingOut.booking_status = .checked_in ∨
           bookingOut.booking_status = .checked_out)))) := by
  have hfb : find_booking dbOut "bbbbbbbbbbbbbbbbbbbbbbb2" =
      some bookingOut := by
    norm_num [find_booking, dbOut, bookingOut, bookingB1,
      (by decide : isObjectIdLike "bbbbbbbbbbbbbbbbbbbbbbb2" = true)]
  exact ⟨hfb, update_booking_status_validated_targets_only dbOut
    "bbbbbbbbbbbbbbbbbbbbbbb2" .confirmed bookingOut hfb⟩

/-- C7 amended: add_payment never changes total_amount, base_amount or
tax_amount; with S the payment sum including the new amount, the new
payment_status is paid when S is at least total_amount, partial when S is
positive and below total_amount, and pending when S is zero provided
total_amount is positive (the paid comparison is checked first, so a zero
sum on a non-positive total yields paid). -/
theorem add_payment_spec (db : Db) (bid : String) (amt : ℚ)
    (b b1 : Booking) (d : Db) (hfb : find_booking db bid = some b)
    (hok : add_payment db bid amt = .ok (b1, d)) :
    b1.total_amount = b.total_amount ∧ b1.base_amount = b.base_amount ∧
    b1.tax_amount = b.tax_amount ∧ b1.payments = b.payments ++ [amt] ∧
    (b.total_amount ≤ b.payments.sum + amt → b1.payment_status = .paid) ∧
    (0 < b.payments.sum + amt ∧ b.payments.sum + amt < b.total_amount →
      b1.payment_status = .partPaid) ∧
    (b.payments.sum + amt = 0 ∧ 0 < b.total_amount →
      b1.payment_status = .pending) := by
  unfold add_payment add_payment_core at hok
  rw [hfb] at hok
  dsimp only at hok
  rw [Except.ok.injEq, Prod.mk.injEq] at hok
  obtain ⟨hb, hd⟩ := hok
  subst hb
  refine ⟨by simp, by simp, by simp, by simp,
    fun h => ?_, fun h => ?_, fun h => ?_⟩
  · dsimp only
    rw [if_pos h]
  · obtain ⟨h1, h2⟩ := h
    dsimp only
    rw [if_neg (not_le.mpr h2), if_pos h1]
  · obtain ⟨h1, h2⟩ := h
    have hn1 : ¬ b.total_amount ≤ b.payments.sum + amt := by
      rw [h1]; exact not_le.mpr h2
    have hn2 : ¬ (0 : ℚ) < b.payments.sum + amt := by
      rw [h1]; exact lt_irrefl 0
    dsimp only
    rw [if_neg hn1, if_neg hn2]

/-- Witness for C7: paying 100 against the 440 booking yields partial and
leaves the amounts unchanged. -/
theorem add_payment_spec_witness :
    find_booking dbNested "bbbbbbbbbbbbbbbbbbbbbbb1" = some bookingB1 ∧
    add_payment dbNested "bbbbbbbbbbbbbbbbbbbbbbb1" 100 =
      .ok (payB1, payDb1) ∧
    (payB1.total_amount = bookingB1.total_amount ∧
     payB1.base_amount = bookingB1.base_amount ∧
     payB1.tax_amount = bookingB1.tax_amount ∧
     payB1.payments = bookingB1.payments ++ [100] ∧
     (bookingB1.total_amount ≤ bookingB1.payments.sum + 100 →
       payB1.payment_status = .paid) ∧
     (0 < bookingB1.payments.sum + 100 ∧
       bookingB1.payments.sum + 100 < bookingB1.total_amount →
       payB1.payment_status = .partPaid) ∧
     (bookingB1.payments.sum + 100 = 0 ∧ 0 < bookingB1.total_amount →
       payB1.payment_status = .pending)) := by
  have hfb : find_booking dbNested "bbbbbbbbbbbbbbbbbbbbbbb1" =
      some bookingB1 := by
    norm_num [find_booking, dbNested, bookingB1,
      (by decide : isObjectIdLike "bbbbbbbbbbbbbbbbbbbbbbb1" = true)]
  have hok : add_payment dbNested "bbbbbbbbbbbbbbbbbbbbbbb1" 100 =
      .ok (payB1, payDb1) := by
    norm_num [add_payment, add_payment_core, find_booking, dbNested,
      bookingB1, payB1, payDb1, putBooking,
      (by decide : isObjectIdLike "bbbbbbbbbbbbbbbbbbbbbbb1" = true)]
  exact ⟨hfb, hok, add_payment_spec dbNested "bbbbbbbbbbbbbbbbbbbbbbb1" 100
    bookingB1 payB1 payDb1 hfb hok⟩

/-- C9 amended: every booking mutation catches all exceptions and
re-raises a ValueError with an operation-specific message prefix, so any
error a caller sees — including an injected unexpected store error — is a
valueError, never the original store error. -/
theorem all_operation_errors_are_value_errors (db : Db) (inp : BookingInput)
    (nid bn : String) (sf hk : Option String)
    (bid2 bid3 bid4 bid5 : String) (st : BookingStatus) (amt chg : ℚ)
    (nco : ℤ) (e1 e2 e3 e4 e5 : PyErr) :
    (create_booking db inp nid bn sf = .error e1 →
      ∃ m, e1 = .valueError m) ∧
    (update_booking_status db bid2 st hk = .error e2 →
      ∃ m, e2 = .valueError m) ∧
    (add_payment db bid3 amt = .error e3 → ∃ m, e3 = .valueError m) ∧
    (add_room_charge db bid4 chg = .error e4 → ∃ m, e4 = .valueError m) ∧
    (extend_booking db bid5 nco = .error e5 → ∃ m, e5 = .valueError m) := by
  refine ⟨fun h => ?_, fun h => ?_, fun h => ?_, fun h => ?_, fun h => ?_⟩
  · unfold create_booking at h
    split at h
    · simp at h
    · rw [Except.error.injEq] at h
      exact ⟨_, h.symm⟩
  · unfold update_booking_status at h
    split at h
    · simp at h
    · rw [Except.error.injEq] at h
      exact ⟨_, h.symm⟩
  · unfold add_payment at h
    split at h
    · simp at h
    · rw [Except.error.injEq] at h
      exact ⟨_, h.symm⟩
  · unfold add_room_charge at h
    split at h
    · simp at h
    · rw [Except.error.injEq] at h
      exact ⟨_, h.symm⟩
  · unfold extend_booking at h
    split at h
    · simp at h
    · rw [Except.error.injEq] at h
      exact ⟨_, h.symm⟩

/-- Witness for C9 on the empty store: each operation fails and the error
each caller sees is a valueError. -/
theorem all_operation_errors_are_value_errors_witness :
    (create_booking dbEmpty inpNormal "cccccccccccccccccccccccc"
        "BK20240110000000" none = .error (.valueError
        "Error creating booking: Room not found in specified hotel") ∧
      ∃ m, PyErr.valueError
        "Error creating booking: Room not found in specified hotel" =
        .valueError m) ∧
    (update_booking_status dbEmpty "x" .confirmed none = .error (.valueError
        "Error updating booking status: Booking not found") ∧
      ∃ m, PyErr.valueError
        "Error updating booking status: Booking not found" =
        .valueError m) ∧
    (add_payment dbEmpty "x" 1 = .error (.valueError
        "Error adding payment: Booking not found") ∧
      ∃ m, PyErr.valueError "Error adding payment: Booking not found" =
        .valueError m) ∧
    (add_room_charge dbEmpty "x" 1 = .error (.valueError
        "Error adding room charge: Active booking not found") ∧
      ∃ m, PyErr.valueError
        "Error adding room charge: Active booking not found" =
        .valueError m) ∧
    (extend_booking dbEmpty "x" 15 = .error (.valueError
        "Error extending booking: Booking not found") ∧
      ∃ m, PyErr.valueError "Error extending booking: Booking not found" =
        .valueError m) := by
  have hc : create_booking dbEmpty inpNormal "cccccccccccccccccccccccc"
      "BK20240110000000" none = .error (.valueError
      "Error creating booking: Room not found in specified hotel") := by
    decide
  have hu : update_booking_status dbEmpty "x" .confirmed none =
      .error (.valueError
      "Error updating booking status: Booking not found") := by
    decide
  have hp : add_payment dbEmpty "x" 1 = .error (.valueError
      "Error adding payment: Booking not found") := by
    decide
  have hr : add_room_charge dbEmpty "x" 1 = .error (.valueError
      "Error adding room charge: Active booking not found") := by
    decide
  have he : extend_booking dbEmpty "x" 15 = .error (.valueError
      "Error extending booking: Booking not found") := by
    decide
  have h := all_operation_errors_are_value_errors dbEmpty inpNormal
    "cccccccccccccccccccccccc" "BK20240110000000" none none "x" "x" "x" "x"
    .confirmed 1 1 15
    (.valueError "Error creating booking: Room not found in specified hotel")
    (.valueError "Error updating booking status: Booking not found")
    (.valueError "Error adding payment: Booking not found")
    (.valueError "Error adding room charge: Active booking not found")
    (.valueError "Error extending booking: Booking not found")
  exact ⟨⟨hc, h.1 hc⟩, ⟨hu, h.2.1 hu⟩, ⟨hp, h.2.2.1 hp⟩,
    ⟨hr, h.2.2.2.1 hr⟩, ⟨he, h.2.2.2.2 he⟩⟩

/-- C6: for a booking found in the store whose room is found by id,
extend_booking fails InvalidState when the status is neither confirmed nor
checked_in, fails Validation when the new check-out date is not after the
current one, fails Conflict when another active booking matches the
extension conflict query, and on success returns the booking with
base_amount increased by price_per_night * additional_nights, tax_amount by
10% of that, total_amount by their sum, and check_out_date set to the new
date. -/
theorem extend_booking_spec (db : Db) (bid : String) (nco : ℤ)
    (b b1 : Booking) (r : Room) (d : Db)
    (hfb : find_booking db bid = some b)
    (hroom : findRoomById db b.room_id = some r) :
    ((b.booking_status ≠ .confirmed ∧ b.booking_status ≠ .checked_in) →
      extend_booking db bid nco = .error (.valueError
        "Error extending booking: Can only extend confirmed or checked-in bookings")) ∧
    ((b.booking_status = .confirmed ∨ b.booking_status = .checked_in) →
      nco ≤ b.check_out_date →
      extend_booking db bid nco = .error (.valueError
        "Error extending booking: New check-out date must be after current check-out date")) ∧
    ((b.booking_status = .confirmed ∨ b.booking_status = .checked_in) →
      b.check_out_date < nco →
      (db.bookings.find? (extendConflictQuery b nco)).isSome = true →
      extend_booking db bid nco = .error (.valueError
        "Error extending booking: Room is not available for the requested extension period")) ∧
    (extend_booking db bid nco = .ok (b1, d) →
      b1.base_amount = b.base_amount +
        r.price_per_night * ((nco - b.check_out_date : ℤ) : ℚ) ∧
      b1.tax_amount = b.tax_amount +
        r.price_per_night * ((nco - b.check_out_date : ℤ) : ℚ) * (1 / 10) ∧
      b1.total_amount = b.total_amount +
        (r.price_per_night * ((nco - b.check_out_date : ℤ) : ℚ) +
         r.price_per_night * ((nco - b.check_out_date : ℤ) : ℚ) * (1 / 10)) ∧
      b1.check_out_date = nco) := by
  refine ⟨fun h1 => ?_, fun hst h2 => ?_, fun hst h2 h3 => ?_,
    fun hok => ?_⟩
  · simp only [extend_booking, extend_booking_core, hfb]
    rw [if_pos h1]
    decide
  · have hn1 : ¬(b.booking_status ≠ .confirmed ∧
        b.booking_status ≠ .checked_in) := by
      rcases hst with h | h <;> simp [h]
    simp only [extend_booking, extend_booking_core, hfb]
    rw [if_neg hn1, if_pos h2]
    decide
  · have hn1 : ¬(b.booking_status ≠ .confirmed ∧
        b.booking_status ≠ .checked_in) := by
      rcases hst with h | h <;> simp [h]
    simp only [extend_booking, extend_booking_core, hfb]
    rw [if_neg hn1, if_neg (not_le.mpr h2), if_pos h3]
    decide
  · cases hcore : extend_booking_core db bid nco with
    | error m => simp [extend_booking, hcore] at hok
    | ok x =>
      simp only [extend_booking, hcore, Except.ok.injEq] at hok
      subst hok
      unfold extend_booking_core at hcore
      rw [hfb] at hcore
      dsimp only at hcore
      split at hcore
      · simp at hcore
      · split at hcore
        · simp at hcore
        · split at hcore
          · simp at hcore
          · rw [hroom] at hcore
            dsimp only at hcore
            rw [Except.ok.injEq, Prod.mk.injEq] at hcore
            obtain ⟨hb, hd⟩ := hcore
            subst hb
            exact ⟨by simp, by simp, by simp, by simp⟩

/-- Witness for C6: extending the checked-in booking from day 14 to 16 at
price 100 adds 200 to base, 20 to tax, 220 to total. -/
theorem extend_booking_spec_witness :
    find_booking dbIn "bbbbbbbbbbbbbbbbbbbbbbb3" = some bookingIn ∧
    findRoomById dbIn bookingIn.room_id = some roomA ∧
    extend_booking dbIn "bbbbbbbbbbbbbbbbbbbbbbb3" 16 =
      .ok (extB1, extDb1) ∧
    (extB1.base_amount = bookingIn.base_amount +
       roomA.price_per_night * ((16 - bookingIn.check_out_date : ℤ) : ℚ) ∧
     extB1.tax_amount = bookingIn.tax_amount +
       roomA.price_per_night *
         ((16 - bookingIn.check_out_date : ℤ) : ℚ) * (1 / 10) ∧
     extB1.total_amount = bookingIn.total_amount +
       (roomA.price_per_night * ((16 - bookingIn.check_out_date : ℤ) : ℚ) +
        roomA.price_per_night *
          ((16 - bookingIn.check_out_date : ℤ) : ℚ) * (1 / 10)) ∧
     extB1.check_out_date = 16) := by
  have hfb : find_booking dbIn "bbbbbbbbbbbbbbbbbbbbbbb3" =
      some bookingIn := by
    norm_num [find_booking, dbIn, bookingIn, bookingB1,
      (by decide : isObjectIdLike "bbbbbbbbbbbbbbbbbbbbbbb3" = true)]
  have hroom : findRoomById dbIn bookingIn.room_id = some roomA := by
    norm_num [findRoomById, dbIn, roomA, bookingIn, bookingB1]
  have hok : extend_booking dbIn "bbbbbbbbbbbbbbbbbbbbbbb3" 16 =
      .ok (extB1, extDb1) := by
    norm_num [extend_booking, extend_booking_core, find_booking,
      extendConflictQuery, findRoomById, BookingStatus.isActive, putBooking,
      dbIn, bookingIn, bookingB1, roomA, extB1, extDb1,
      (by decide : isObjectIdLike "bbbbbbbbbbbbbbbbbbbbbbb3" = true)]
  exact ⟨hfb, hroom, hok, (extend_booking_spec dbIn
    "bbbbbbbbbbbbbbbbbbbbbbb3" 16 bookingIn extB1 roomA extDb1 hfb
    hroom).2.2.2 hok⟩

end Nexus
